import Mathlib

/-!
Verification of the editor session controller of the frontend AI editor.

The development shallowly embeds three parts of the code base:

* `src/lib/editorMachine.ts` — the XState session machine (states `idle`,
  `loading`, `success`, `error`; events `CONTINUE_WRITING`, `SUCCESS`,
  `ERROR`, `RESET`, plus the two delayed `after` transitions, modelled as
  explicit timer events that are only handled in the state that owns them,
  matching XState's semantics of delayed transitions).
* `src/lib/prosemirrorSetup.ts` — the `insertTextWithTypingEffect` reveal
  loop, over a document modelled by its plain text together with the
  ProseMirror position arithmetic the source uses (`doc.content.size` counts
  the paragraph's two boundary tokens, so the text of the single paragraph
  occupies positions `1 .. length + 1` and `insert` at position `p` places
  the character at text index `p - 1`).
* `src/app/api/continue/route.ts` — the `POST /api/continue` handler, over a
  JSON value model rich enough to express "missing", "not a string" and
  JavaScript truthiness.

Machine integers (`Date.now()` timestamps) are modelled as `Nat`.
-/

namespace AIEditor

/-- Context of the editor machine, from `EditorContext` in `src/lib/types.ts`:
`currentText`, nullable `generatedText`, nullable `error`, nullable
`lastRequestTime` (a timestamp). -/
structure EditorContext where
  currentText : String
  generatedText : Option String
  error : Option String
  lastRequestTime : Option Nat
  deriving DecidableEq, Repr

/-- Initial context of the machine (`initialContext` in `editorMachine.ts`). -/
def initialContext : EditorContext :=
  { currentText := "", generatedText := none, error := none, lastRequestTime := none }

/-- The four states of the machine (`idle`, `loading`, `success`, `error`). -/
inductive EditorState where
  | idle
  | loading
  | success
  | error
  deriving DecidableEq, Repr

/-- Events of the machine, from `EditorEvent` in `src/lib/types.ts`, plus the
two delayed transitions (`after: 100` on `success`, `after: 3000` on `error`)
modelled as explicit timer-firing events. -/
inductive EditorEvent where
  | continueWriting (text : String)
  | successEv (generatedText : String)
  | errorEv (error : String)
  | reset
  | after100
  | after3000
  deriving DecidableEq, Repr

/-- Guard `canMakeRequest` of `editorMachine.ts`: true when `lastRequestTime`
is null or at least 1000 ms have elapsed.  In the source this guard is
declared in the `guards` block but is not attached to any transition. -/
def canMakeRequest (ctx : EditorContext) (now : Nat) : Bool :=
  match ctx.lastRequestTime with
  | none => true
  | some t => 1000 ≤ now - t

/-- Characters removed by JavaScript's `String.prototype.trim`: ASCII
whitespace, no-break space, the line and paragraph separators, and the BOM
(the remaining Unicode space separators are elided; no claim involves
them). -/
def isJsSpace (c : Char) : Bool :=
  c == ' ' || c == '\t' || c == '\n' || c == '\r' || c == '\x0B' || c == '\x0C' ||
  c == '\u00A0' || c == '\u2028' || c == '\u2029' || c == '\uFEFF'

/-- JavaScript's `String.prototype.trim` on the character list. -/
def jsTrimList (cs : List Char) : List Char :=
  ((cs.dropWhile isJsSpace).reverse.dropWhile isJsSpace).reverse

/-- JavaScript's `String.prototype.trim`. -/
def jsTrim (s : String) : String :=
  ⟨jsTrimList s.data⟩

/-- Guard `hasText` of `editorMachine.ts`: the `CONTINUE_WRITING` event
carries text that is non-empty after trimming. -/
def hasText (ev : EditorEvent) : Bool :=
  match ev with
  | .continueWriting text => 0 < (jsTrim text).data.length
  | _ => false

/-- Action `setCurrentText` of `editorMachine.ts`: store the submitted text,
stamp `lastRequestTime` with `Date.now()`, clear error and generated text. -/
def setCurrentText (ctx : EditorContext) (ev : EditorEvent) (now : Nat) : EditorContext :=
  { ctx with
    currentText := (match ev with | .continueWriting text => text | _ => ""),
    lastRequestTime := some now,
    error := none,
    generatedText := none }

/-- Action `setGeneratedText` of `editorMachine.ts`: store the generated text
and clear the error. -/
def setGeneratedText (ctx : EditorContext) (ev : EditorEvent) : EditorContext :=
  { ctx with
    generatedText := (match ev with | .successEv g => some g | _ => none),
    error := none }

/-- Action `setError` of `editorMachine.ts`: store the error message and
clear the generated text. -/
def setError (ctx : EditorContext) (ev : EditorEvent) : EditorContext :=
  { ctx with
    error := (match ev with | .errorEv e => some e | _ => none),
    generatedText := none }

/-- Action `reset` of `editorMachine.ts`: restore the whole initial context. -/
def resetAction (_ctx : EditorContext) : EditorContext :=
  initialContext

/-- Transition function of the machine defined by `createMachine` in
`editorMachine.ts`.  Events not handled in the current state are ignored
(XState drops them); the delayed events are handled only in the state that
declared the corresponding `after` transition.  `now` is `Date.now()` at the
moment the event is processed. -/
def transition (s : EditorState) (ctx : EditorContext) (ev : EditorEvent) (now : Nat) :
    EditorState × EditorContext :=
  match s, ev with
  | .idle, .continueWriting text =>
      if hasText (.continueWriting text) then
        (.loading, setCurrentText ctx (.continueWriting text) now)
      else
        (.idle, ctx)
  | .idle, .reset => (.idle, resetAction ctx)
  | .loading, .successEv g => (.success, setGeneratedText ctx (.successEv g))
  | .loading, .errorEv e => (.error, setError ctx (.errorEv e))
  | .success, .after100 => (.idle, ctx)
  | .error, .after3000 => (.idle, ctx)
  | .error, .reset => (.idle, resetAction ctx)
  | _, _ => (s, ctx)

/-- A ProseMirror document holding a single paragraph, identified with the
paragraph's plain text. -/
structure PMDoc where
  text : List Char
  deriving DecidableEq, Repr

/-- The source's `doc.content.size`: the paragraph contributes an opening and
a closing boundary token around its text. -/
def PMDoc.contentSize (d : PMDoc) : Nat :=
  d.text.length + 2

/-- The source's `tr.insert(pos, node)` for a one-character text node:
position `pos` inside the paragraph corresponds to text index `pos - 1`. -/
def PMDoc.insertAt (d : PMDoc) (pos : Nat) (c : Char) : PMDoc :=
  ⟨d.text.take (pos - 1) ++ c :: d.text.drop (pos - 1)⟩

/-- The regular-expression test of `prosemirrorSetup.ts`:
regex `[.,!?;:]` anchored at the start, i.e. the string's first character is
terminal punctuation. -/
def punctLead (s : String) : Bool :=
  match s.data with
  | [] => false
  | c :: _ => c == '.' || c == ',' || c == '!' || c == '?' || c == ';' || c == ':'

/-- The `textToInsert` computation shared by `insertTextAtEnd` and
`insertTextWithTypingEffect`: prepend a single space unless the text starts
with terminal punctuation after trimming. -/
def textToInsert (text : String) : String :=
  if punctLead (jsTrim text) then text else ⟨' ' :: text.data⟩

/-- The per-character loop of `insertTextWithTypingEffect`: starting at
position `pos`, dispatch one insertion transaction per character, advancing
`currentPos` by one after each step.  The loop contains no cancellation
check; the inter-step delay has no observable effect on the document and is
not modelled. -/
def typingLoop (d : PMDoc) (pos : Nat) : List Char → PMDoc
  | [] => d
  | c :: rest => typingLoop (d.insertAt pos c) (pos + 1) rest

/-- The sequence of insertion transactions dispatched by the per-character
loop: each element is one document mutation, recorded as the pair of the
insertion position and the single inserted character. -/
def typingLoopTrace (pos : Nat) : List Char → List (Nat × Char)
  | [] => []
  | c :: rest => (pos, c) :: typingLoopTrace (pos + 1) rest

/-- `insertTextWithTypingEffect` of `prosemirrorSetup.ts`, as its effect on
the document: compute `textToInsert`, start at `currentPos =
doc.content.size - 1`, and insert the characters one by one. -/
def insertTextWithTypingEffect (d : PMDoc) (text : String) : PMDoc :=
  typingLoop d (d.contentSize - 1) (textToInsert text).data

/-- The trace of document mutations a reveal of `text` over document `d`
dispatches, in order. -/
def revealTrace (d : PMDoc) (text : String) : List (Nat × Char) :=
  typingLoopTrace (d.contentSize - 1) (textToInsert text).data

/-- Helper for the reveal runner described by the specification: consume the
characters one step at a time, consulting the cancellation predicate (indexed
by the number of steps already taken) before each step. -/
def cancellableSteps (isCancelled : Nat → Bool) : Nat → List Char → List Char
  | _, [] => []
  | k, c :: rest =>
      if isCancelled k then [] else c :: cancellableSteps isCancelled (k + 1) rest

/-- Reveal runner following the specification's wording (§4.2): before each
per-character step check `isCancelled()` and stop immediately when it returns
true.  The source's `insertTextWithTypingEffect` takes no such predicate;
this definition exists only to exhibit the divergence. -/
def revealRunSpec (text : String) (isCancelled : Nat → Bool) : List Char :=
  cancellableSteps isCancelled 0 (textToInsert text).data

/-- A JSON value as far as the route's validation can distinguish it:
a string, a number, a boolean, or null.  An absent field is modelled by
`Option` at the use site. -/
inductive JsValue where
  | jstr (s : String)
  | jnum (n : Int)
  | jbool (b : Bool)
  | jnull
  deriving DecidableEq, Repr

/-- JavaScript truthiness of a `JsValue` (an absent field is falsy). -/
def jsTruthy : JsValue → Bool
  | .jstr s => !s.data.isEmpty
  | .jnum n => n != 0
  | .jbool b => b
  | .jnull => false

/-- The `typeof v === 'string'` test. -/
def isStringValue : JsValue → Bool
  | .jstr _ => true
  | _ => false

/-- Parsed request body of `POST /api/continue`; `text` is `none` when the
field is absent.  The `maxTokens` field is passed through to the provider and
plays no role in the handler's control flow. -/
structure ContinueBody where
  text : Option JsValue
  maxTokens : Option Nat
  deriving DecidableEq, Repr

/-- `ContinueWritingResponse` of `src/lib/types.ts`: the provider's result,
with an optional error message. -/
structure ContinueWritingResponse where
  continuedText : String
  error : Option String
  deriving DecidableEq, Repr

/-- An HTTP JSON response of the route: status code plus the two optional
body fields (the 400 responses carry no `continuedText` field). -/
structure ApiResponse where
  status : Nat
  continuedText : Option String
  error : Option String
  deriving DecidableEq, Repr

/-- The `POST` handler of `src/app/api/continue/route.ts`, with the provider
call's result passed as a parameter: reject with 400 when `!body.text ||
typeof body.text !== 'string'`, reject with 400 when the text trims to the
empty string, answer 500 with empty `continuedText` when `result.error` is
truthy, and otherwise answer 200 with the continued text. -/
def POST (body : ContinueBody) (result : ContinueWritingResponse) : ApiResponse :=
  let textInvalid :=
    match body.text with
    | none => true
    | some v => !jsTruthy v || !isStringValue v
  if textInvalid then
    { status := 400, continuedText := none, error := some "Text is required and must be a string" }
  else
    match body.text with
    | some (.jstr s) =>
        if (jsTrim s).data.length = 0 then
          { status := 400, continuedText := none, error := some "Text cannot be empty" }
        else
          match result.error with
          | some e =>
              if e.data.isEmpty then
                { status := 200, continuedText := some result.continuedText, error := none }
              else
                { status := 500, continuedText := some "", error := some e }
          | none =>
              { status := 200, continuedText := some result.continuedText, error := none }
    | _ => { status := 400, continuedText := none, error := some "Text is required and must be a string" }

/-- The claim's trichotomy premise for a 400 answer: the `text` field is
missing, not a string, or empty after trimming. -/
def textRejected (body : ContinueBody) : Bool :=
  match body.text with
  | some (.jstr s) => decide ((jsTrim s).data.length = 0)
  | _ => true

/-- The handler's notion of a failed provider call: `result.error` is truthy,
i.e. present and non-empty. -/
def providerFailed (result : ContinueWritingResponse) : Bool :=
  match result.error with
  | some e => !e.data.isEmpty
  | none => false

theorem insertAt_end (D : List Char) (c : Char) :
    PMDoc.insertAt ⟨D⟩ (D.length + 1) c = ⟨D ++ [c]⟩ := by
  simp [PMDoc.insertAt]

theorem typingLoop_append (cs : List Char) : ∀ D : List Char,
    typingLoop ⟨D⟩ (D.length + 1) cs = ⟨D ++ cs⟩ := by
  induction cs with
  | nil => intro D; simp [typingLoop]
  | cons c rest ih =>
      intro D
      have h := ih (D ++ [c])
      simp only [List.length_append, List.length_cons, List.length_nil] at h
      simpa [typingLoop, insertAt_end, List.append_assoc] using h

theorem trace_map_snd (cs : List Char) : ∀ pos : Nat,
    (typingLoopTrace pos cs).map Prod.snd = cs := by
  induction cs with
  | nil => intro pos; rfl
  | cons c rest ih => intro pos; simp [typingLoopTrace, ih]

theorem trace_length (cs : List Char) : ∀ pos : Nat,
    (typingLoopTrace pos cs).length = cs.length := by
  induction cs with
  | nil => intro pos; rfl
  | cons c rest ih => intro pos; simp [typingLoopTrace, ih]

theorem insertText_result (D : List Char) (t : String) :
    (insertTextWithTypingEffect ⟨D⟩ t).text = D ++ (textToInsert t).data := by
  show (typingLoop ⟨D⟩ ((⟨D⟩ : PMDoc).contentSize - 1) (textToInsert t).data).text
      = D ++ (textToInsert t).data
  have hpos : (⟨D⟩ : PMDoc).contentSize - 1 = D.length + 1 := rfl
  rw [hpos, typingLoop_append]

/-- C1: the specification demands that `SUBMIT` delivered in `Idle` less than
1000 ms after `lastRequestTime` be a no-op even for non-empty text.  The
machine violates this: with `lastRequestTime = 500` and `now = 600` —
so that the `canMakeRequest` guard, which the source declares but attaches
to no transition, computes `false` — delivering `CONTINUE_WRITING "hello"`
moves the machine to `loading` and records the request. -/
theorem c1_rate_limit_guard_not_enforced :
    transition .idle ⟨"", none, none, some 500⟩ (.continueWriting "hello") 600
        = (.loading, ⟨"hello", none, none, some 600⟩)
      ∧ canMakeRequest ⟨"", none, none, some 500⟩ 600 = false := by
  constructor <;> decide

/-- C2 counterexample: the claim says that cancelling after step 3 of a
10-character reveal appends only 3 characters plus the leading space.  The
source's reveal loop consults no cancellation predicate at all: revealing the
10-character text `"0123456789"` dispatches all 11 insertions (space
included) unconditionally, whereas the specification's cancellable runner
with a predicate that fires after 4 steps would have stopped at 4. -/
theorem c2_cancellation_counterexample :
    (revealTrace ⟨[]⟩ "0123456789").map Prod.snd = (" 0123456789").data
      ∧ (revealTrace ⟨[]⟩ "0123456789").length = 11
      ∧ revealRunSpec "0123456789" (fun k => decide (4 ≤ k)) = (" 012").data
      ∧ (11 : Nat) ≠ 4 :=
  ⟨by decide, by decide, by decide, by decide⟩

/-- C2 (amended): the reveal loop of `insertTextWithTypingEffect` checks no
cancellation predicate — the function takes none — so every character of
`textToInsert` is inserted unconditionally and a run can never stop early at
a step boundary. -/
theorem c2_reveal_has_no_cancellation :
    ∀ (D : List Char) (t : String),
      (revealTrace ⟨D⟩ t).map Prod.snd = (textToInsert t).data := by
  intro D t
  exact trace_map_snd _ _

/-- C3 counterexample: a reveal of the 5-character text `"world"` (which does
not start with terminal punctuation) over the document `"Hello"` dispatches
6 document mutations, not `len("world") = 5`, because of the prepended
space. -/
theorem c3_mutation_count_counterexample :
    (revealTrace ⟨("Hello").data⟩ "world").length = 6
      ∧ ("world").length = 5
      ∧ (6 : Nat) ≠ 5 :=
  ⟨by decide, by decide, by decide⟩

/-- C3 (amended): a reveal of `t` performs exactly `len(textToInsert)`
document mutations, where `textToInsert` is `t` when `t` starts with
terminal punctuation after trimming and `" " ++ t` otherwise; each mutation
appends exactly one character and the characters appear in left-to-right
order of `textToInsert`. -/
theorem c3_reveal_mutation_count :
    ∀ (D : List Char) (t : String),
      (revealTrace ⟨D⟩ t).length = (textToInsert t).data.length
        ∧ (revealTrace ⟨D⟩ t).map Prod.snd = (textToInsert t).data
        ∧ (insertTextWithTypingEffect ⟨D⟩ t).text = D ++ (textToInsert t).data := by
  intro D t
  exact ⟨trace_length _ _, trace_map_snd _ _, insertText_result D t⟩

/-- C4: a completed reveal of `t` over a document with plain text `D`
produces `D ++ t` when the first character of `t` after trimming is one of
`. , ! ? ; :`, and `D ++ " " ++ t` otherwise. -/
theorem c4_reveal_final_text :
    ∀ (D : List Char) (t : String),
      (insertTextWithTypingEffect ⟨D⟩ t).text =
        if punctLead (jsTrim t) then D ++ t.data else D ++ ' ' :: t.data := by
  intro D t
  rw [insertText_result]
  by_cases h : punctLead (jsTrim t)
  · simp [textToInsert, h]
  · simp [textToInsert, h]

/-- C5 counterexample: the transition that exits `success` back to `idle`
(the `after: 100` delayed transition, fired when the reveal has completed)
carries no action: with `lastRequestTime = 0` and the exit processed at
`now = 5000`, the context is returned unchanged and `lastRequestTime` is not
set to the current time. -/
theorem c5_lastRequestTime_counterexample :
    transition .success ⟨"t", some "g", none, some 0⟩ .after100 5000
        = (.idle, ⟨"t", some "g", none, some 0⟩)
      ∧ (⟨"t", some "g", none, some 0⟩ : EditorContext).lastRequestTime ≠ some 5000 := by
  constructor <;> decide

/-- C5 (amended): the transition that exits `success` back to `idle` leaves
the whole context, `lastRequestTime` included, unchanged; `lastRequestTime`
is instead set to the current time at submission, when an accepted
`CONTINUE_WRITING` is processed, so any rate-limit window would be measured
from submission, not from completion of the reveal. -/
theorem c5_lastRequestTime_set_at_submission :
    ∀ (ctx : EditorContext) (now : Nat) (t : String),
      transition .success ctx .after100 now = (.idle, ctx)
        ∧ (hasText (.continueWriting t) = true →
            (transition .idle ctx (.continueWriting t) now).2.lastRequestTime = some now) := by
  intro ctx now t
  refine ⟨rfl, fun h => ?_⟩
  simp [transition, h, setCurrentText]

/-- Witness for C5 (amended) at `ctx = initialContext`, `now = 7`,
`t = "hi"`. -/
theorem c5_lastRequestTime_set_at_submission_witness :
    transition .success initialContext .after100 7 = (.idle, initialContext)
      ∧ (transition .idle initialContext (.continueWriting "hi") 7).2.lastRequestTime = some 7 :=
  ⟨(c5_lastRequestTime_set_at_submission initialContext 7 "hi").1,
   (c5_lastRequestTime_set_at_submission initialContext 7 "hi").2 (by decide)⟩

/-- C6: delivering `SUCCESS` in any state other than `loading` leaves the
state and the entire context unchanged; from `loading` it moves the machine
to `success`, stores the generated text and clears any error. -/
theorem c6_success_only_from_loading :
    ∀ (s : EditorState) (ctx : EditorContext) (g : String) (now : Nat),
      (s ≠ .loading → transition s ctx (.successEv g) now = (s, ctx))
        ∧ transition .loading ctx (.successEv g) now
            = (.success, { ctx with generatedText := some g, error := none }) := by
  intro s ctx g now
  constructor
  · intro h
    cases s with
    | idle => rfl
    | loading => exact absurd rfl h
    | success => rfl
    | error => rfl
  · rfl

/-- Witness for C6 at `s = idle`, `ctx = initialContext`, `g = "g"`,
`now = 0`. -/
theorem c6_success_only_from_loading_witness :
    transition .idle initialContext (.successEv "g") 0 = (.idle, initialContext)
      ∧ transition .loading initialContext (.successEv "g") 0
          = (.success, { initialContext with generatedText := some "g", error := none }) :=
  ⟨(c6_success_only_from_loading .idle initialContext "g" 0).1 (by decide),
   (c6_success_only_from_loading .loading initialContext "g" 0).2⟩

/-- C7 counterexample: the 3000 ms timeout transition out of `error` carries
no action, so the stored reason is not cleared: with `error = some "boom"`
the machine reaches `idle` with the reason still in the context. -/
theorem c7_reason_not_cleared_counterexample :
    transition .error ⟨"", none, some "boom", none⟩ .after3000 0
        = (.idle, ⟨"", none, some "boom", none⟩)
      ∧ (transition .error ⟨"", none, some "boom", none⟩ .after3000 0).2.error ≠ none := by
  constructor <;> decide

/-- C7 (amended): from `error`, the 3000 ms timeout transitions to `idle`
with the context — the stored reason included — unchanged; `RESET` from
`error` transitions to `idle` immediately and clears the reason by restoring
the whole initial context. -/
theorem c7_failed_exits :
    ∀ (ctx : EditorContext) (now : Nat),
      transition .error ctx .after3000 now = (.idle, ctx)
        ∧ transition .error ctx .reset now = (.idle, initialContext) := by
  intro ctx now
  exact ⟨rfl, rfl⟩

/-- C8 counterexample: `RESET` delivered in `idle` restores the whole initial
context, so a stored `lastRequestTime = 42` is cleared to `null` rather than
persisting. -/
theorem c8_reset_clears_lastRequestTime :
    (transition .idle ⟨"x", none, none, some 42⟩ .reset 100).2.lastRequestTime = none
      ∧ (⟨"x", none, none, some 42⟩ : EditorContext).lastRequestTime = some 42
      ∧ (some 42 : Option Nat) ≠ none :=
  ⟨by decide, by decide, by decide⟩

/-- C8 (amended): `lastRequestTime` is preserved by every transition except
an accepted `CONTINUE_WRITING` from `idle`, which sets it to the current
time, and `RESET` handled in `idle` or `error`, which clears it to `null`
together with the rest of the context. -/
theorem c8_lastRequestTime_frame :
    ∀ (s : EditorState) (ctx : EditorContext) (ev : EditorEvent) (now : Nat),
      (transition s ctx ev now).2.lastRequestTime =
        match s, ev with
        | .idle, .continueWriting t =>
            if hasText (.continueWriting t) then some now else ctx.lastRequestTime
        | .idle, .reset => none
        | .error, .reset => none
        | _, _ => ctx.lastRequestTime := by
  intro s ctx ev now
  cases s <;> cases ev <;> try rfl
  rename_i t
  by_cases h : hasText (.continueWriting t)
  · simp [transition, h, setCurrentText]
  · simp [transition, h]

/-- C9: the `POST /api/continue` handler answers 400 when the body's `text`
field is missing, not a string, or empty after trimming; 500 with an error
message and empty `continuedText` when the provider call fails (its result
carries a truthy error); and otherwise 200 with the continued text. -/
theorem c9_continue_endpoint_statuses :
    ∀ (body : ContinueBody) (result : ContinueWritingResponse),
      (textRejected body = true → (POST body result).status = 400)
        ∧ (textRejected body = false → providerFailed result = true →
            POST body result = ⟨500, some "", result.error⟩)
        ∧ (textRejected body = false → providerFailed result = false →
            POST body result = ⟨200, some result.continuedText, none⟩) := by
  intro body result
  obtain ⟨tx, mt⟩ := body
  obtain ⟨ct, err⟩ := result
  cases tx with
  | none =>
      refine ⟨fun _ => rfl, fun h => ?_, fun h => ?_⟩ <;> simp [textRejected] at h
  | some v =>
      cases v with
      | jstr s =>
          by_cases h0 : s.data.isEmpty
          · have hs : s.data = [] := by simpa using h0
            refine ⟨fun _ => ?_, fun h => ?_, fun h => ?_⟩
            · simp [POST, jsTruthy, isStringValue, h0]
            · simp [textRejected, jsTrim, jsTrimList, hs] at h
            · simp [textRejected, jsTrim, jsTrimList, hs] at h
          · by_cases h1 : (jsTrim s).length = 0
            · refine ⟨fun _ => ?_, fun h => ?_, fun h => ?_⟩
              · simp [POST, jsTruthy, isStringValue, h0, h1]
              · simp [textRejected, h1] at h
              · simp [textRejected, h1] at h
            · cases err with
              | none =>
                  refine ⟨fun h => ?_, fun _ h2 => ?_, fun _ _ => ?_⟩
                  · simp [textRejected, h1] at h
                  · simp [providerFailed] at h2
                  · simp [POST, jsTruthy, isStringValue, h0, h1]
              | some e =>
                  by_cases he : e.data.isEmpty
                  · refine ⟨fun h => ?_, fun _ h2 => ?_, fun _ _ => ?_⟩
                    · simp [textRejected, h1] at h
                    · simp [providerFailed, he] at h2
                    · simp [POST, jsTruthy, isStringValue, h0, h1, he]
                  · refine ⟨fun h => ?_, fun _ _ => ?_, fun _ h2 => ?_⟩
                    · simp [textRejected, h1] at h
                    · simp [POST, jsTruthy, isStringValue, h0, h1, he]
                    · simp [providerFailed, he] at h2
      | jnum n =>
          refine ⟨fun _ => ?_, fun h => ?_, fun h => ?_⟩
          · simp [POST, isStringValue]
          · simp [textRejected] at h
          · simp [textRejected] at h
      | jbool b =>
          refine ⟨fun _ => ?_, fun h => ?_, fun h => ?_⟩
          · simp [POST, isStringValue]
          · simp [textRejected] at h
          · simp [textRejected] at h
      | jnull =>
          refine ⟨fun _ => ?_, fun h => ?_, fun h => ?_⟩
          · simp [POST, isStringValue]
          · simp [textRejected] at h
          · simp [textRejected] at h

/-- Witness for C9: a missing `text` field answers 400; a valid body with a
failing provider answers 500 with empty `continuedText`; a valid body with a
successful provider answers 200 with the continued text. -/
theorem c9_continue_endpoint_statuses_witness :
    (POST ⟨none, none⟩ ⟨"x", none⟩).status = 400
      ∧ POST ⟨some (.jstr "hi"), none⟩ ⟨"", some "boom"⟩ = ⟨500, some "", some "boom"⟩
      ∧ POST ⟨some (.jstr "hi"), some 150⟩ ⟨"cont", none⟩ = ⟨200, some "cont", none⟩ :=
  ⟨(c9_continue_endpoint_statuses ⟨none, none⟩ ⟨"x", none⟩).1 (by decide),
   (c9_continue_endpoint_statuses ⟨some (.jstr "hi"), none⟩ ⟨"", some "boom"⟩).2.1
     (by decide) (by decide),
   (c9_continue_endpoint_statuses ⟨some (.jstr "hi"), some 150⟩ ⟨"cont", none⟩).2.2
     (by decide) (by decide)⟩

/-- C10: `RESET` delivered in `loading` or in `success` is silently ignored —
neither state handles the event, so the state and the entire context
(`currentText`, `generatedText`, `error` and `lastRequestTime`) are
unchanged. -/
theorem c10_reset_ignored_midflight :
    ∀ (ctx : EditorContext) (now : Nat),
      transition .loading ctx .reset now = (.loading, ctx)
        ∧ transition .success ctx .reset now = (.success, ctx) := by
  intro ctx now
  exact ⟨rfl, rfl⟩

end AIEditor
